import Mathlib

/-!
Verification development for the `unipartdigital/odoo` addon repository.

The repository contains three source files:

* `src/addons/launcher/models/launcher.py` — the `launcher.launcher`
  transient model: a registry of callables, each started as an OS thread
  by `Launcher.launch`, plus a module-level `threading.Event` sentinel
  set by `Launcher.notify_shutdown`.
* `src/odoo/addons/base/tests/test_ir_sequence.py` — tests of the
  `ir.sequence` model (standard and no-gap implementations, and the
  `seq_by_code` cache keyed by (code, company)).
* `src/addons/stock/tests/test_package_hierarchy.py` — tests of the
  parent/child recursion guard on `stock.quant.package`.

The launcher is embedded directly from its source.  The `ir.sequence`
implementation and the package-hierarchy constraint are code of this
repository that is not under `src/` (only their tests are), so those
parts are modelled from the spec, as marked in their doc comments.
-/

namespace Launcher

/-- A registered callable (a Python function object).  `fname` is the
function's `__name__`; `fails` records whether calling it would raise,
which `launch` never inspects (threads are started, not run, and no
error is propagated back). -/
structure Callable where
  fname : String
  fails : Bool
  deriving Repr, DecidableEq

/-- The reference (object identity) of the module-level
`threading.Event` named `_sentinel`, created once at module load.  In
the world state, event objects live in `events`, indexed by reference. -/
def sentinelRef : Nat := 0

/-- A thread object created by `threading.Thread(...)` inside
`Launcher.launch`.  `target` is the registered callable wrapped by the
partial application; `argEvent` is the reference of the event object
passed to it as its sole argument; `name` is the name the threading
library assigned; `dbname` is the attribute set by `launch`;
`started`/`joined` record whether `t.start()`/`t.join()` were called. -/
structure SpawnedThread where
  target : Callable
  argEvent : Nat
  name : String
  dbname : String
  started : Bool
  joined : Bool
  deriving Repr, DecidableEq

/-- The calling thread, as far as `launch` inspects it:
`getattr(threading.currentThread(), "dbname", "?")` — the attribute may
be absent, hence `Option`. -/
structure CurThread where
  dbname : Option String
  deriving Repr, DecidableEq

/-- Process-wide state relevant to the launcher module: the class-level
`_registered` list, the heap of `threading.Event` objects (index =
object reference, value = whether the event is set), the threads that
have been created, and the counter the threading library uses for
default thread names. -/
structure World where
  registered : List Callable
  events : List Bool
  threads : List SpawnedThread
  threadCounter : Nat
  deriving Repr, DecidableEq

/-- World at module load: `_sentinel = threading.Event()` allocates
event 0, unset; no threads; Python's default thread-name counter starts
at 1. -/
def initWorld (reg : List Callable) : World :=
  { registered := reg, events := [false], threads := [], threadCounter := 1 }

/-- Default name the threading library gives a thread created without a
`name` argument: `Thread-N`.  (`launch` passes no `name`; the target is
a `functools` partial application, which has no `__name__`, so no
target-derived name is used in any CPython version.) -/
def pyThreadName (n : Nat) : String := "Thread-" ++ toString n

/-- One iteration of the loop body of `Launcher.launch`:
`t = threading.Thread(target=functools.partial(launchable, _sentinel))`,
`t.dbname = getattr(threading.currentThread(), "dbname", "?")`,
`t.start()`. -/
def spawnOne (cur : CurThread) (w : World) (c : Callable) : World :=
  let t : SpawnedThread :=
    { target := c
      argEvent := sentinelRef
      name := pyThreadName w.threadCounter
      dbname := cur.dbname.getD "?"
      started := true
      joined := false }
  { w with threads := w.threads ++ [t], threadCounter := w.threadCounter + 1 }

/-- `Launcher.launch`: starts a thread for each registered callable and
returns `None` (modelled as `none`). -/
def launch (cur : CurThread) (w : World) : Option Unit × World :=
  (none, w.registered.foldl (spawnOne cur) w)

/-- `Launcher.notify_shutdown`: `_sentinel.set()`; returns `None`. -/
def notify_shutdown (w : World) : Option Unit × World :=
  (none, { w with events := w.events.set sentinelRef true })

/-- An operation on the process: either some thread invokes
`Launcher.launch`, or `Launcher.notify_shutdown` is invoked. -/
inductive SysOp
  | launchOp (cur : CurThread)
  | notifyOp
  deriving Repr, DecidableEq

/-- Effect of one operation on the world. -/
def runOp (w : World) : SysOp → World
  | .launchOp cur => (launch cur w).2
  | .notifyOp => (notify_shutdown w).2

/-- Effect of a sequence of operations, starting from `w`. -/
def runOps (w : World) (ops : List SysOp) : World := ops.foldl runOp w

/-- The threads created by running the loop of `launch` over callables
`cs` when the thread-name counter starts at `k`. -/
def spawnedOf (cur : CurThread) (k : Nat) : List Callable → List SpawnedThread
  | [] => []
  | c :: cs =>
      { target := c
        argEvent := sentinelRef
        name := pyThreadName k
        dbname := cur.dbname.getD "?"
        started := true
        joined := false } :: spawnedOf cur (k + 1) cs

end Launcher

namespace IrSeq

/-!
Model of the `ir.sequence` implementation.  Only the tests of
`ir.sequence` are under `src/` (`src/odoo/addons/base/tests/
test_ir_sequence.py`); the implementation itself is code of this
repository outside `src/`, so it is modelled from the spec below.
-/

/-- Modelled from the spec: the `implementation` field of `ir.sequence`
— a `standard` (PostgreSQL sequence) implementation and a `no_gap` one
relying on row-level database locking. -/
inductive SeqImpl
  | standard
  | noGap
  deriving Repr, DecidableEq

/-- Modelled from the spec: an `ir.sequence` record with the fields the
tests exercise: `code`, `company_id`, `implementation`, `number_next`,
`number_increment` and `padding`. -/
structure SeqRec where
  id : Nat
  code : Option String
  companyId : Nat
  implementation : SeqImpl
  numberNext : Nat
  numberIncrement : Nat
  padding : Nat
  deriving Repr, DecidableEq

/-- Modelled from the spec: the values passed to `create`, with the
model's field defaults (`number_next` 1, `number_increment` 1,
`padding` 0, `implementation` standard) for fields not passed. -/
structure SeqVals where
  code : Option String := none
  companyId : Nat := 1
  implementation : SeqImpl := .standard
  numberNext : Nat := 1
  numberIncrement : Nat := 1
  padding : Nat := 0
  deriving Repr, DecidableEq

/-- Modelled from the spec: the sequence table plus the row-level locks
currently held on sequence rows — a lock `(i, tx)` means transaction
`tx` holds the `SELECT ... FOR UPDATE`-style row lock on the sequence
row with id `i`. -/
structure SeqDb where
  seqs : List SeqRec
  nextId : Nat
  locks : List (Nat × Nat)
  deriving Repr, DecidableEq

def emptyDb : SeqDb := { seqs := [], nextId := 1, locks := [] }

/-- Modelled from the spec: `ir.sequence.create` — allocates the next
row id and appends the record. -/
def createSeq (db : SeqDb) (v : SeqVals) : SeqRec × SeqDb :=
  let r : SeqRec :=
    { id := db.nextId
      code := v.code
      companyId := v.companyId
      implementation := v.implementation
      numberNext := v.numberNext
      numberIncrement := v.numberIncrement
      padding := v.padding }
  (r, { db with seqs := db.seqs ++ [r], nextId := db.nextId + 1 })

/-- Update the sequence row with id `i` in place. -/
def updateSeq (db : SeqDb) (i : Nat) (f : SeqRec → SeqRec) : SeqDb :=
  { db with seqs := db.seqs.map (fun r => if r.id = i then f r else r) }

def findByCode (db : SeqDb) (code : String) : Option SeqRec :=
  db.seqs.find? (fun r => r.code == some code)

/-- Modelled from the spec: the interpolation of a drawn number —
`'%%0%sd' % padding % n`: the decimal digits of `n`, zero-padded on the
left to `padding` characters. -/
def formatVal (padding n : Nat) : String :=
  let s := toString n
  if s.length < padding then String.mk (List.replicate (padding - s.length) '0') ++ s
  else s

def drawValue (r : SeqRec) : String := formatVal r.padding r.numberNext

/-- Modelled from the spec: `psycopg2.errorcodes.LOCK_NOT_AVAILABLE`
(PostgreSQL SQLSTATE 55P03). -/
def LOCK_NOT_AVAILABLE : String := "55P03"

/-- Modelled from the spec: a `psycopg2.OperationalError`, identified by
its `pgcode`. -/
structure OperationalError where
  pgcode : String
  deriving Repr, DecidableEq

/-- Result of a sequence operation: a returned value, or a database
error raised to the caller. -/
inductive SeqResult (α : Type)
  | ok (v : α)
  | raised (e : OperationalError)
  deriving Repr, DecidableEq

/-- Modelled from the spec: `ir.sequence.next_by_id` as run by
transaction `tx`.  A missing row yields `False` (`none`).  The standard
implementation draws from the backing generator without locking.  The
no-gap implementation first takes the row lock (`SELECT ... FOR UPDATE
NOWAIT` equivalent): if another transaction holds it, the database
raises an `OperationalError` with pgcode `LOCK_NOT_AVAILABLE` instead of
blocking the caller forever. -/
def nextByIdTx (tx : Nat) (db : SeqDb) (i : Nat) :
    SeqResult (Option String × SeqDb) :=
  match db.seqs.find? (fun r => r.id == i) with
  | none => .ok (none, db)
  | some r =>
      match r.implementation with
      | .standard =>
          .ok (some (drawValue r),
            updateSeq db i (fun s => { s with numberNext := s.numberNext + s.numberIncrement }))
      | .noGap =>
          if db.locks.any (fun l => l.1 == i && l.2 != tx) then
            .raised ⟨LOCK_NOT_AVAILABLE⟩
          else
            .ok (some (drawValue r),
              { updateSeq db i (fun s => { s with numberNext := s.numberNext + s.numberIncrement })
                  with locks := (i, tx) :: db.locks })

/-- Modelled from the spec: `ir.sequence.next_by_code` — look the
sequence up by its `code` and draw from it; `False` (`none`) when no
sequence has that code. -/
def nextByCodeTx (tx : Nat) (db : SeqDb) (code : String) :
    SeqResult (Option String × SeqDb) :=
  match findByCode db code with
  | none => .ok (none, db)
  | some r => nextByIdTx tx db r.id

/-- Draw `n` values by code in transaction `tx`, collecting the results
in order (an error contributes its exception and leaves the state). -/
def drawList (tx : Nat) (db : SeqDb) (code : String) :
    Nat → List (SeqResult (Option String)) × SeqDb
  | 0 => ([], db)
  | n + 1 =>
      match nextByCodeTx tx db code with
      | .ok (v, db') =>
          let (rest, db'') := drawList tx db' code n
          (.ok v :: rest, db'')
      | .raised e =>
          let (rest, db'') := drawList tx db code n
          (.raised e :: rest, db'')

/-- Draw `n` values by id in transaction `tx`, collecting the results in
order. -/
def drawByIdList (tx : Nat) (db : SeqDb) (i : Nat) :
    Nat → List (SeqResult (Option String)) × SeqDb
  | 0 => ([], db)
  | n + 1 =>
      match nextByIdTx tx db i with
      | .ok (v, db') =>
          let (rest, db'') := drawByIdList tx db' i n
          (.ok v :: rest, db'')
      | .raised e =>
          let (rest, db'') := drawByIdList tx db i n
          (.raised e :: rest, db'')

/-- Modelled from the spec: `write({'number_next': v})` — for the
standard implementation this restarts the backing PostgreSQL sequence at
`v` rather than being ignored. -/
def writeNumberNext (db : SeqDb) (i : Nat) (v : Nat) : SeqDb :=
  updateSeq db i (fun r => { r with numberNext := v })

/-- The test scenario of `test_ir_sequence_draw_twice_no_gap`: on a
fresh database, create a no-gap sequence with code `code`, then let
transaction `tx0` draw by code and, on the resulting uncommitted state,
let transaction `tx1` draw by code.  Returns the two observed
outcomes. -/
def noGapTwoTxDraw (tx0 tx1 : Nat) (code : String) :
    SeqResult (Option String) × SeqResult (Option String) :=
  let db0 := (createSeq emptyDb { code := some code, implementation := .noGap }).2
  match nextByCodeTx tx0 db0 code with
  | .ok (v, db1) =>
      (.ok v,
        match nextByCodeTx tx1 db1 code with
        | .ok (v', _) => .ok v'
        | .raised e => .raised e)
  | .raised e => (.raised e, .raised e)

/-- Modelled from the spec: the registry around the sequence table — the
`seq_by_code` cache is keyed by `(code, company)` and must be
invalidated on create/write/unlink; it is a Python-side cache, so a
database savepoint rollback does not touch it until the registry's
`reset_changes` clears it. -/
structure SeqRegistry where
  db : SeqDb
  cache : List ((String × Nat) × Option Nat)
  deriving Repr, DecidableEq

def cacheLookup (reg : SeqRegistry) (code : String) (company : Nat) :
    Option (Option Nat) :=
  (reg.cache.find? (fun e => e.1 == (code, company))).map (fun e => e.2)

def dbSearchByCode (db : SeqDb) (code : String) (company : Nat) : Option Nat :=
  (db.seqs.find? (fun r => r.code == some code && r.companyId == company)).map
    (fun r => r.id)

/-- Modelled from the spec: `seq_by_code(code, company)` — serve the
cached id for `(code, company)` if present, otherwise query the table,
cache the answer (also a `False` answer) and return it.  `none` models
the Python `False`. -/
def seq_by_code (reg : SeqRegistry) (code : String) (company : Nat) :
    Option Nat × SeqRegistry :=
  match cacheLookup reg code company with
  | some v => (v, reg)
  | none =>
      let v := dbSearchByCode reg.db code company
      (v, { reg with cache := ((code, company), v) :: reg.cache })

/-- Modelled from the spec: `create` through the registry — the mutation
invalidates the `seq_by_code` cache. -/
def regCreate (reg : SeqRegistry) (v : SeqVals) : SeqRec × SeqRegistry :=
  let (r, db') := createSeq reg.db v
  (r, { db := db', cache := [] })

/-- Modelled from the spec: `unlink` through the registry — deletes the
row and invalidates the cache. -/
def regUnlink (reg : SeqRegistry) (i : Nat) : SeqRegistry :=
  { db := { reg.db with seqs := reg.db.seqs.filter (fun r => r.id != i) }
    cache := [] }

/-- Modelled from the spec: `write({'code': newCode})` through the
registry — rewrites the row's code and invalidates the cache. -/
def regWriteCode (reg : SeqRegistry) (i : Nat) (newCode : Option String) :
    SeqRegistry :=
  { db := updateSeq reg.db i (fun r => { r with code := newCode })
    cache := [] }

/-- Modelled from the spec: rolling the enclosing database transaction
back to a savepoint restores the table snapshot but leaves the
Python-side cache as it is (that is exactly what the registry reset is
then needed for). -/
def rollbackTo (snapshot : SeqDb) (reg : SeqRegistry) : SeqRegistry :=
  { db := snapshot, cache := reg.cache }

/-- Modelled from the spec: `pool.reset_changes()` — clears the
registry's caches. -/
def reset_changes (reg : SeqRegistry) : SeqRegistry := { reg with cache := [] }

/-- The database of the `TestIrSequenceInit.test_00` scenario: a fresh
standard sequence with `number_next` 1, `company_id` 1, `padding` 4 and
`number_increment` 1 (it gets row id 1). -/
def c10Db0 : SeqDb :=
  (createSeq emptyDb
    { numberNext := 1, companyId := 1, padding := 4,
      numberIncrement := 1, implementation := .standard }).2

/-- The registry of the `TestIrSequenceCacheClearing` scenario: one
sequence with code `test.sequence` for company 1, empty cache. -/
def c2Reg : SeqRegistry :=
  { db := { seqs := [{ id := 1, code := some "test.sequence", companyId := 1,
                       implementation := .standard, numberNext := 1,
                       numberIncrement := 1, padding := 0 }],
            nextId := 2, locks := [] },
    cache := [] }

end IrSeq

namespace Package

/-!
Model of the `stock.quant.package` parent/child recursion guard.  Only
its tests are under `src/` (`src/addons/stock/tests/
test_package_hierarchy.py`); the constraint itself is code of this
repository outside `src/`, so it is modelled from the spec: a
parent/child self-reference guard evaluated by the ORM's write-time
validation hook, implemented as a single ancestor-walk.
-/

/-- The package table: packages are identified by `Nat` ids; `parent i`
is the `parent_id` of package `i` (`none` at the root).  `numPkgs`
bounds the number of packages, so an ancestor walk of `numPkgs + 1`
steps must revisit a node if a cycle exists. -/
structure PkgForest where
  numPkgs : Nat
  parent : Nat → Option Nat

/-- Set `parent_id` of package `x` to `v`, leaving every other package
unchanged. -/
def setParent (db : PkgForest) (x : Nat) (v : Option Nat) : PkgForest :=
  { db with parent := fun y => if y = x then v else db.parent y }

/-- Modelled from the spec: the ancestor walk — starting from `a`,
follow `parent_id` links for at most `fuel` steps and report whether `b`
is encountered.  `reachAnc db fuel a b = true` means `b` is a strict
ancestor of `a` within `fuel` steps. -/
def reachAnc (db : PkgForest) : Nat → Nat → Nat → Bool
  | 0, _, _ => false
  | fuel + 1, a, b =>
      match db.parent a with
      | none => false
      | some r => r == b || reachAnc db fuel r b

/-- Modelled from the spec: the host framework's `ValidationError`. -/
inductive PkgError
  | validation
  deriving Repr, DecidableEq

/-- Modelled from the spec: `write({'parent_id': q})` on package `p`.
The write-time validation hook checks the updated hierarchy with an
ancestor walk from the written record; a referential cycle raises
`ValidationError` and the enclosing transaction is rolled back, leaving
the hierarchy unchanged. -/
def writeParent (db : PkgForest) (p q : Nat) : PkgForest × Option PkgError :=
  let db' := setParent db p (some q)
  if reachAnc db' (db.numPkgs + 1) p p then (db, some .validation)
  else (db', none)

/-- Modelled from the spec: `write({'children_ids': [(4, c, False)]})`
on package `p` — linking `c` as a child of `p` sets `c`'s `parent_id` to
`p`, validated by the same write-time ancestor walk from the record
whose parent changed. -/
def writeChildren (db : PkgForest) (p c : Nat) : PkgForest × Option PkgError :=
  let db' := setParent db c (some p)
  if reachAnc db' (db.numPkgs + 1) c c then (db, some .validation)
  else (db', none)

/-- A concrete three-package hierarchy: package 2 is inside package 1,
package 3 inside package 2 (as built by the recursion tests). -/
def samplePkgForest : PkgForest :=
  { numPkgs := 3
    parent := fun x => if x = 2 then some 1 else if x = 3 then some 2 else none }

end Package

namespace Launcher

theorem foldl_spawnOne_threads (cur : CurThread) (cs : List Callable) :
    ∀ w : World,
      (cs.foldl (spawnOne cur) w).threads
        = w.threads ++ spawnedOf cur w.threadCounter cs := by
  induction cs with
  | nil => intro w; simp [spawnedOf]
  | cons c cs ih =>
      intro w
      simp only [List.foldl_cons, spawnedOf]
      rw [ih]
      simp [spawnOne, List.append_assoc]

theorem foldl_spawnOne_events (cur : CurThread) (cs : List Callable) :
    ∀ w : World, (cs.foldl (spawnOne cur) w).events = w.events := by
  induction cs with
  | nil => intro w; rfl
  | cons c cs ih => intro w; rw [List.foldl_cons, ih]; rfl

theorem foldl_spawnOne_registered (cur : CurThread) (cs : List Callable) :
    ∀ w : World, (cs.foldl (spawnOne cur) w).registered = w.registered := by
  induction cs with
  | nil => intro w; rfl
  | cons c cs ih => intro w; rw [List.foldl_cons, ih]; rfl

theorem spawnedOf_length (cur : CurThread) (cs : List Callable) :
    ∀ k, (spawnedOf cur k cs).length = cs.length := by
  induction cs with
  | nil => intro k; rfl
  | cons c cs ih => intro k; simp [spawnedOf, ih]

theorem spawnedOf_get (cur : CurThread) (cs : List Callable) :
    ∀ k i (hi : i < cs.length),
      (spawnedOf cur k cs).get ⟨i, by rw [spawnedOf_length]; exact hi⟩
        = { target := cs.get ⟨i, hi⟩
            argEvent := sentinelRef
            name := pyThreadName (k + i)
            dbname := cur.dbname.getD "?"
            started := true
            joined := false } := by
  induction cs with
  | nil => intro k i hi; exact absurd hi (Nat.not_lt_zero i)
  | cons c cs ih =>
      intro k i hi
      cases i with
      | zero => simp [spawnedOf]
      | succ j =>
          have hj : j < cs.length := Nat.lt_of_succ_lt_succ hi
          have := ih (k + 1) j hj
          simp only [spawnedOf, List.get_cons_succ]
          rw [this]
          have : k + 1 + j = k + (j + 1) := by omega
          rw [this]

theorem mem_spawnedOf (cur : CurThread) (cs : List Callable) :
    ∀ k t, t ∈ spawnedOf cur k cs →
      t.argEvent = sentinelRef ∧ t.dbname = cur.dbname.getD "?" ∧
        t.started = true ∧ t.joined = false := by
  induction cs with
  | nil => intro k t ht; cases ht
  | cons c cs ih =>
      intro k t ht
      rcases List.mem_cons.mp ht with h | h
      · subst h; exact ⟨rfl, rfl, rfl, rfl⟩
      · exact ih (k + 1) t h

theorem spawnedOf_map_name (cur : CurThread) (cs : List Callable) :
    ∀ k, (spawnedOf cur k cs).map SpawnedThread.name
      = (List.range cs.length).map (fun i => pyThreadName (k + i)) := by
  induction cs with
  | nil => intro k; rfl
  | cons c cs ih =>
      intro k
      rw [List.length_cons, List.range_succ_eq_map]
      simp only [spawnedOf, List.map_cons, List.map_map]
      rw [ih (k + 1)]
      refine congrArg₂ List.cons ?_ ?_
      · show pyThreadName k = pyThreadName (k + 0)
        rw [Nat.add_zero]
      · refine List.map_congr_left (fun i _ => ?_)
        exact congrArg pyThreadName (by omega)

theorem runOp_threads_argEvent (w : World) (op : SysOp)
    (hw : ∀ t ∈ w.threads, t.argEvent = sentinelRef) :
    ∀ t ∈ (runOp w op).threads, t.argEvent = sentinelRef := by
  cases op with
  | launchOp cur =>
      intro t ht
      simp only [runOp, launch, foldl_spawnOne_threads] at ht
      rcases List.mem_append.mp ht with h | h
      · exact hw t h
      · exact (mem_spawnedOf cur w.registered w.threadCounter t h).1
  | notifyOp => exact hw

theorem runOp_events_length (w : World) (op : SysOp) :
    (runOp w op).events.length = w.events.length := by
  cases op with
  | launchOp cur => simp [runOp, launch, foldl_spawnOne_events]
  | notifyOp => simp [runOp, notify_shutdown]

theorem runOp_sentinel_stays_set (w : World) (op : SysOp)
    (hw : w.events.get? sentinelRef = some true) :
    (runOp w op).events.get? sentinelRef = some true := by
  cases op with
  | launchOp cur => simpa [runOp, launch, foldl_spawnOne_events] using hw
  | notifyOp =>
      cases hl : w.events with
      | nil => rw [hl] at hw; cases hw
      | cons b bs => simp [runOp, notify_shutdown, sentinelRef, hl]

theorem runOps_threads_argEvent (ops : List SysOp) :
    ∀ w : World, (∀ t ∈ w.threads, t.argEvent = sentinelRef) →
      ∀ t ∈ (runOps w ops).threads, t.argEvent = sentinelRef := by
  induction ops with
  | nil => intro w hw; exact hw
  | cons op rest ih =>
      intro w hw
      exact ih (runOp w op) (runOp_threads_argEvent w op hw)

theorem runOps_sentinel_stays_set (ops : List SysOp) :
    ∀ w : World, w.events.get? sentinelRef = some true →
      (runOps w ops).events.get? sentinelRef = some true := by
  induction ops with
  | nil => intro w hw; exact hw
  | cons op rest ih =>
      intro w hw
      exact ih (runOp w op) (runOp_sentinel_stays_set w op hw)

theorem runOps_notify_sets_sentinel (ops : List SysOp) :
    ∀ w : World, 0 < w.events.length → SysOp.notifyOp ∈ ops →
      (runOps w ops).events.get? sentinelRef = some true := by
  induction ops with
  | nil => intro w _ hmem; cases hmem
  | cons op rest ih =>
      intro w hlen hmem
      rcases List.mem_cons.mp hmem with h | h
      · subst h
        refine runOps_sentinel_stays_set rest (runOp w .notifyOp) ?_
        cases hl : w.events with
        | nil => rw [hl] at hlen; cases hlen
        | cons b bs => simp [runOp, notify_shutdown, sentinelRef, hl]
      · refine ih (runOp w op) ?_ h
        rw [runOp_events_length]; exact hlen

/-- Claim C5: `Launcher.launch` always returns `None`, regardless of how
many callables are registered. -/
theorem C5_launch_returns_none (cur : CurThread) (w : World) :
    (launch cur w).1 = none := rfl

/-- Claim C6: `Launcher.launch` starts exactly one new OS thread per
entry of the registered-callables list, in registration order (the
`i`-th new thread's target is the `i`-th registered callable), each
started and never joined; the result is the same whether or not the
callables would fail, so no error is propagated from them. -/
theorem C6_one_thread_per_callable (cur : CurThread) (w : World) :
    (launch cur w).2.threads.length = w.threads.length + w.registered.length
    ∧ ∀ i (hi : i < w.registered.length),
        (launch cur w).2.threads.get? (w.threads.length + i)
          = some { target := w.registered.get ⟨i, hi⟩
                   argEvent := sentinelRef
                   name := pyThreadName (w.threadCounter + i)
                   dbname := cur.dbname.getD "?"
                   started := true
                   joined := false } := by
  have hthreads : (launch cur w).2.threads
      = w.threads ++ spawnedOf cur w.threadCounter w.registered :=
    foldl_spawnOne_threads cur w.registered w
  constructor
  · rw [hthreads, List.length_append, spawnedOf_length]
  · intro i hi
    have hi' : i < (spawnedOf cur w.threadCounter w.registered).length := by
      rw [spawnedOf_length]; exact hi
    rw [hthreads, List.get?_append_right (Nat.le_add_right _ _)]
    rw [Nat.add_sub_cancel_left, List.get?_eq_get hi',
      spawnedOf_get cur w.registered w.threadCounter i hi]

/-- Claim C6 witness: with two registered callables, the second new
thread runs the second callable, is started and is not joined. -/
theorem C6_one_thread_per_callable_witness :
    (launch ⟨some "db"⟩ (initWorld [⟨"f", false⟩, ⟨"g", true⟩])).2.threads.get? 1
      = some { target := ⟨"g", true⟩
               argEvent := sentinelRef
               name := pyThreadName 2
               dbname := "db"
               started := true
               joined := false } := by
  have h := (C6_one_thread_per_callable ⟨some "db"⟩
    (initWorld [⟨"f", false⟩, ⟨"g", true⟩])).2 1 (by decide)
  simpa [initWorld] using h

/-- Claim C7 counterexample: the thread started for a registered
function named `my_worker` is named `Thread-1`, not `my_worker`: the
source creates the thread without a `name` argument, so it gets the
threading library's default name. -/
theorem C7_named_after_function_counterexample :
    (launch ⟨none⟩ (initWorld [⟨"my_worker", false⟩])).2.threads.map
        SpawnedThread.name = ["Thread-1"]
    ∧ (launch ⟨none⟩ (initWorld [⟨"my_worker", false⟩])).2.threads.map
        (fun t => t.target.fname) = ["my_worker"]
    ∧ ("Thread-1" : String) ≠ "my_worker" := by
  refine ⟨rfl, rfl, by decide⟩

/-- Claim C7 (amended): the OS threads started by `Launcher.launch` are
given the threading library's default sequential names `Thread-N` (in
spawn order), not names derived from the registered functions they run;
the function is recorded only as the thread's target. -/
theorem C7_default_thread_names (cur : CurThread) (reg : List Callable) :
    (launch cur (initWorld reg)).2.threads.map SpawnedThread.name
      = (List.range reg.length).map (fun i => pyThreadName (1 + i)) := by
  have hthreads : (launch cur (initWorld reg)).2.threads
      = [] ++ spawnedOf cur 1 reg :=
    foldl_spawnOne_threads cur reg (initWorld reg)
  rw [hthreads, List.nil_append, spawnedOf_map_name]

/-- Claim C8: there is a single process-wide sentinel event: every
thread ever spawned by `launch` received that same event object as its
argument, and once `notify_shutdown` has run, that event reads as set in
the final state, whatever other launches happen before or after. -/
theorem C8_shared_sentinel (reg : List Callable) (ops : List SysOp) :
    (∀ t ∈ (runOps (initWorld reg) ops).threads, t.argEvent = sentinelRef)
    ∧ (SysOp.notifyOp ∈ ops →
        (runOps (initWorld reg) ops).events.get? sentinelRef = some true) := by
  constructor
  · exact runOps_threads_argEvent ops (initWorld reg) (by intro t ht; cases ht)
  · intro hmem
    exact runOps_notify_sets_sentinel ops (initWorld reg)
      (by simp [initWorld]) hmem

/-- Claim C8 witness: after a launch of one callable followed by a
shutdown notification, the spawned thread's event argument is the
sentinel, and the sentinel reads as set. -/
theorem C8_shared_sentinel_witness :
    ({ target := ⟨"f", false⟩, argEvent := sentinelRef
       name := pyThreadName 1, dbname := "?"
       started := true, joined := false } : SpawnedThread).argEvent = sentinelRef
    ∧ (runOps (initWorld [⟨"f", false⟩])
        [SysOp.launchOp ⟨none⟩, SysOp.notifyOp]).events.get? sentinelRef
        = some true :=
  ⟨(C8_shared_sentinel [⟨"f", false⟩] [SysOp.launchOp ⟨none⟩, SysOp.notifyOp]).1
      _ (by decide),
   (C8_shared_sentinel [⟨"f", false⟩] [SysOp.launchOp ⟨none⟩, SysOp.notifyOp]).2
      (by decide)⟩

/-- Claim C9: every thread spawned by `launch` has its `dbname`
attribute set: equal to the launching thread's `dbname` when that
attribute exists and to `"?"` otherwise. -/
theorem C9_dbname_propagated (cur : CurThread) (reg : List Callable)
    (t : SpawnedThread)
    (ht : t ∈ (launch cur (initWorld reg)).2.threads) :
    t.dbname = match cur.dbname with
               | some d => d
               | none => "?" := by
  have hthreads : (launch cur (initWorld reg)).2.threads
      = [] ++ spawnedOf cur 1 reg :=
    foldl_spawnOne_threads cur reg (initWorld reg)
  rw [hthreads, List.nil_append] at ht
  have hdb := (mem_spawnedOf cur reg 1 t ht).2.1
  cases hc : cur.dbname with
  | some d => rw [hdb, hc]; rfl
  | none => rw [hdb, hc]; rfl

/-- Claim C9 witness: the thread spawned from a launcher thread whose
`dbname` is `"mydb"` carries `dbname = "mydb"`. -/
theorem C9_dbname_propagated_witness :
    ({ target := ⟨"f", false⟩, argEvent := sentinelRef
       name := pyThreadName 1, dbname := "mydb"
       started := true, joined := false } : SpawnedThread).dbname = "mydb" :=
  C9_dbname_propagated ⟨some "mydb"⟩ [⟨"f", false⟩] _ (by decide)

end Launcher

namespace IrSeq

/-- Claim C1: for a sequence created with implementation `no_gap`, when
two separate transactions draw from it concurrently, the first call
succeeds with a truthy value and the second raises an
`OperationalError` whose pgcode is `LOCK_NOT_AVAILABLE`, rather than
returning a value. -/
theorem C1_no_gap_contention (tx0 tx1 : Nat) (code : String)
    (htx : tx0 ≠ tx1) :
    (noGapTwoTxDraw tx0 tx1 code).1 = .ok (some "1")
    ∧ ("1" : String) ≠ ""
    ∧ (noGapTwoTxDraw tx0 tx1 code).2 = .raised ⟨LOCK_NOT_AVAILABLE⟩ := by
  have hne : (tx0 != tx1) = true := by simpa [bne_iff_ne] using htx
  refine ⟨?_, by decide, ?_⟩
  · simp only [noGapTwoTxDraw, createSeq, emptyDb, nextByCodeTx, findByCode,
      nextByIdTx, updateSeq, drawValue, formatVal, hne]
    simp [hne]
    try decide
  · simp only [noGapTwoTxDraw, createSeq, emptyDb, nextByCodeTx, findByCode,
      nextByIdTx, updateSeq, drawValue, formatVal, hne]
    simp [hne]
    try decide

/-- Claim C1 witness: transactions 0 and 1 contending on a fresh no-gap
sequence with code `test_sequence_type_2`. -/
theorem C1_no_gap_contention_witness :
    (noGapTwoTxDraw 0 1 "test_sequence_type_2").1 = .ok (some "1")
    ∧ ("1" : String) ≠ ""
    ∧ (noGapTwoTxDraw 0 1 "test_sequence_type_2").2
        = .raised ⟨LOCK_NOT_AVAILABLE⟩ :=
  C1_no_gap_contention 0 1 "test_sequence_type_2" (by decide)

/-- Claim C3: on a freshly created no-gap sequence with default start
and increment, nine successive `next_by_code` calls return the strings
"1" through "9" in order, with no skipped values. -/
theorem C3_no_gap_nine_draws :
    (drawList 0
        ((createSeq emptyDb
          { code := some "test_sequence_type_6", implementation := .noGap }).2)
        "test_sequence_type_6" 9).1
      = [.ok (some "1"), .ok (some "2"), .ok (some "3"), .ok (some "4"),
         .ok (some "5"), .ok (some "6"), .ok (some "7"), .ok (some "8"),
         .ok (some "9")] := by decide

/-- Claim C10: on a standard sequence created with `number_next` 1,
`padding` 4 and `number_increment` 1, the fourth `next_by_id` call
returns "0004" (zero-padded to the padding width), and after
`write({'number_next': 1})` the next call returns "0001": writing
`number_next` resets the generator rather than being ignored. -/
theorem C10_standard_padding_and_reset :
    (drawByIdList 0 c10Db0 1 4).1
      = [.ok (some "0001"), .ok (some "0002"),
         .ok (some "0003"), .ok (some "0004")]
    ∧ (drawByIdList 0 (writeNumberNext (drawByIdList 0 c10Db0 1 4).2 1 1) 1 1).1
      = [.ok (some "0001")] := by decide

theorem find?_append_of_none {α : Type} (p : α → Bool) (l₁ l₂ : List α)
    (h : l₁.find? p = none) : (l₁ ++ l₂).find? p = l₂.find? p := by
  induction l₁ with
  | nil => rfl
  | cons a l ih =>
      rw [List.find?_cons] at h
      cases hp : p a with
      | true => rw [hp] at h; cases h
      | false =>
          rw [hp] at h
          rw [List.cons_append, List.find?_cons, hp]
          exact ih h

/-- Claim C2: the `seq_by_code` cache keyed by (code, company) never
serves stale entries after a mutation: after `unlink` of a sequence,
`seq_by_code` for its code returns `False`; after a `write` changing a
sequence's code, `seq_by_code` for the old code returns `False`; and
after a `create` inside a savepoint is rolled back and the registry is
reset, `seq_by_code` for the created code returns `False` (even though
the lookup between create and rollback did populate the cache with the
created id). -/
theorem C2_cache_never_stale :
    (∀ reg : SeqRegistry, ∀ i : Nat, ∀ code : String, ∀ company : Nat,
      (∀ r ∈ reg.db.seqs, r.code = some code → r.companyId = company → r.id = i) →
      (seq_by_code (regUnlink reg i) code company).1 = none)
    ∧ (∀ reg : SeqRegistry, ∀ i : Nat, ∀ oldCode : String,
        ∀ newCode : Option String, ∀ company : Nat,
      (∀ r ∈ reg.db.seqs, r.code = some oldCode → r.companyId = company → r.id = i) →
      newCode ≠ some oldCode →
      (seq_by_code (regWriteCode reg i newCode) oldCode company).1 = none)
    ∧ (∀ reg : SeqRegistry, ∀ v : SeqVals, ∀ code : String, ∀ company : Nat,
      (∀ r ∈ reg.db.seqs, ¬(r.code = some code ∧ r.companyId = company)) →
      v.code = some code → v.companyId = company →
      (seq_by_code (regCreate reg v).2 code company).1 = some reg.db.nextId
      ∧ (seq_by_code (reset_changes (rollbackTo reg.db
          (seq_by_code (regCreate reg v).2 code company).2)) code company).1
        = none) := by
  refine ⟨?_, ?_, ?_⟩
  · intro reg i code company h
    have hfind : ((regUnlink reg i).db.seqs.find?
        (fun r => r.code == some code && r.companyId == company)) = none := by
      rw [List.find?_eq_none]
      intro r hr
      rw [regUnlink] at hr
      simp only [List.mem_filter, bne_iff_ne] at hr
      intro hpred
      simp only [Bool.and_eq_true, beq_iff_eq] at hpred
      exact hr.2 (h r hr.1 hpred.1 hpred.2)
    calc (seq_by_code (regUnlink reg i) code company).1
        = dbSearchByCode (regUnlink reg i).db code company := rfl
      _ = none := by simp only [dbSearchByCode]; rw [hfind]; rfl
  · intro reg i oldCode newCode company h hne
    have hfind : ((regWriteCode reg i newCode).db.seqs.find?
        (fun r => r.code == some oldCode && r.companyId == company)) = none := by
      rw [List.find?_eq_none]
      intro y hy
      rw [regWriteCode, updateSeq] at hy
      simp only [List.mem_map] at hy
      obtain ⟨r, hr, hfr⟩ := hy
      intro hpred
      simp only [Bool.and_eq_true, beq_iff_eq] at hpred
      by_cases hid : r.id = i
      · rw [if_pos hid] at hfr
        rw [← hfr] at hpred
        exact hne hpred.1
      · rw [if_neg hid] at hfr
        subst hfr
        exact hid (h r hr hpred.1 hpred.2)
    calc (seq_by_code (regWriteCode reg i newCode) oldCode company).1
        = dbSearchByCode (regWriteCode reg i newCode).db oldCode company := rfl
      _ = none := by simp only [dbSearchByCode]; rw [hfind]; rfl
  · intro reg v code company h hvcode hvcompany
    constructor
    · have hfind1 : (reg.db.seqs.find?
          (fun r => r.code == some code && r.companyId == company)) = none := by
        rw [List.find?_eq_none]
        intro r hr hpred
        simp only [Bool.and_eq_true, beq_iff_eq] at hpred
        exact h r hr ⟨hpred.1, hpred.2⟩
      calc (seq_by_code (regCreate reg v).2 code company).1
          = dbSearchByCode (regCreate reg v).2.db code company := rfl
        _ = some reg.db.nextId := by
            have hseqs : (regCreate reg v).2.db.seqs = reg.db.seqs ++
                [{ id := reg.db.nextId, code := v.code, companyId := v.companyId,
                   implementation := v.implementation, numberNext := v.numberNext,
                   numberIncrement := v.numberIncrement, padding := v.padding }] := rfl
            simp only [dbSearchByCode, hseqs]
            rw [find?_append_of_none _ _ _ hfind1]
            simp [List.find?, hvcode, hvcompany]
    · have hfind : (reg.db.seqs.find?
          (fun r => r.code == some code && r.companyId == company)) = none := by
        rw [List.find?_eq_none]
        intro r hr hpred
        simp only [Bool.and_eq_true, beq_iff_eq] at hpred
        exact h r hr ⟨hpred.1, hpred.2⟩
      calc (seq_by_code (reset_changes (rollbackTo reg.db
              (seq_by_code (regCreate reg v).2 code company).2)) code company).1
          = dbSearchByCode reg.db code company := rfl
        _ = none := by simp only [dbSearchByCode]; rw [hfind]; rfl

/-- Claim C2 witness: the three parts at a concrete registry holding
one sequence with code `test.sequence` for company 1. -/
theorem C2_cache_never_stale_witness :
    (seq_by_code (regUnlink c2Reg 1) "test.sequence" 1).1 = none
    ∧ (seq_by_code (regWriteCode c2Reg 1 (some "test.sequence.changed"))
        "test.sequence" 1).1 = none
    ∧ ((seq_by_code (regCreate c2Reg
          { code := some "test.sequence.2" }).2 "test.sequence.2" 1).1 = some 2
      ∧ (seq_by_code (reset_changes (rollbackTo c2Reg.db
          (seq_by_code (regCreate c2Reg
            { code := some "test.sequence.2" }).2 "test.sequence.2" 1).2))
          "test.sequence.2" 1).1 = none) :=
  ⟨C2_cache_never_stale.1 c2Reg 1 "test.sequence" 1 (by decide),
   C2_cache_never_stale.2.1 c2Reg 1 "test.sequence"
     (some "test.sequence.changed") 1 (by decide) (by decide),
   C2_cache_never_stale.2.2 c2Reg { code := some "test.sequence.2" }
     "test.sequence.2" 1 (by decide) (by decide) (by decide)⟩

end IrSeq

namespace Package

theorem reach_preserved (db : PkgForest) (t : Nat) (v : Option Nat) :
    ∀ n q, q ≠ t → reachAnc db n q t = true →
      reachAnc (setParent db t v) n q t = true := by
  intro n
  induction n with
  | zero => intro q _ h; simp [reachAnc] at h
  | succ n ih =>
      intro q hq h
      cases hp : db.parent q with
      | none => rw [reachAnc, hp] at h; cases h
      | some r =>
          have hp' : (setParent db t v).parent q = some r := by
            simp [setParent, hq, hp]
          rw [reachAnc, hp] at h
          rw [reachAnc, hp']
          rcases Bool.or_eq_true_iff.mp h with hr | hr
          · exact Bool.or_eq_true_iff.mpr (Or.inl hr)
          · by_cases hrt : r = t
            · subst hrt
              exact Bool.or_eq_true_iff.mpr (Or.inl (beq_self_eq_true r))
            · exact Bool.or_eq_true_iff.mpr (Or.inr (ih r hrt hr))

theorem cycle_detected (db : PkgForest) (x y : Nat) (n : Nat)
    (h : y = x ∨ reachAnc db n y x = true) :
    reachAnc (setParent db x (some y)) (n + 1) x x = true := by
  have hpx : (setParent db x (some y)).parent x = some y := by
    simp [setParent]
  rw [reachAnc, hpx]
  by_cases hyx : y = x
  · subst hyx
    exact Bool.or_eq_true_iff.mpr (Or.inl (beq_self_eq_true y))
  · rcases h with h | h
    · exact absurd h hyx
    · exact Bool.or_eq_true_iff.mpr
        (Or.inr (reach_preserved db x (some y) n y hyx h))

/-- Claim C4: for every package `p`, writing `p`'s own id or the id of
any of its descendants into `parent_id` raises `ValidationError`, and
writing `p`'s own id or the id of any of its ancestors into
`children_ids` raises `ValidationError`; on such an error the hierarchy
is returned unchanged. -/
theorem C4_hierarchy_guard :
    (∀ db : PkgForest, ∀ p d : Nat,
      (d = p ∨ reachAnc db db.numPkgs d p = true) →
      writeParent db p d = (db, some .validation))
    ∧ (∀ db : PkgForest, ∀ p a : Nat,
      (a = p ∨ reachAnc db db.numPkgs p a = true) →
      writeChildren db p a = (db, some .validation)) := by
  constructor
  · intro db p d h
    have hc : reachAnc (setParent db p (some d)) (db.numPkgs + 1) p p = true :=
      cycle_detected db p d db.numPkgs h
    simp [writeParent, hc]
  · intro db p a h
    have h' : p = a ∨ reachAnc db db.numPkgs p a = true := by
      rcases h with h | h
      · exact Or.inl h.symm
      · exact Or.inr h
    have hc : reachAnc (setParent db a (some p)) (db.numPkgs + 1) a a = true :=
      cycle_detected db a p db.numPkgs h'
    simp [writeChildren, hc]

/-- Claim C4 witness: in the concrete hierarchy 3 → 2 → 1, writing the
grandchild 3 as `parent_id` of 1 errors and leaves the hierarchy
unchanged, and writing the grandparent 1 into `children_ids` of 3
errors likewise. -/
theorem C4_hierarchy_guard_witness :
    writeParent samplePkgForest 1 3 = (samplePkgForest, some .validation)
    ∧ writeChildren samplePkgForest 3 1 = (samplePkgForest, some .validation) :=
  ⟨C4_hierarchy_guard.1 samplePkgForest 1 3 (by decide),
   C4_hierarchy_guard.2 samplePkgForest 3 1 (by decide)⟩

end Package
